import Mathlib

/-!
Verification of the VanIdleProbes production engine (src/game/engine.ts) and
save/migration subsystem (src/game/save.ts).

Numbers are modelled as rationals (ℚ): every arithmetic operation the engine
performs (+, -, *, /, min, max, comparisons) is exact on the inputs considered,
so the rational semantics coincides with the JavaScript double semantics on
them except for rounding, which is out of scope.  The special values NaN,
+Infinity and -Infinity, which the code inspects explicitly, are modelled by
the dedicated type JsNum.
-/

/-- JavaScript number: NaN, the two infinities, or a finite value. -/
inductive JsNum where
  | nan : JsNum
  | inf : JsNum
  | ninf : JsNum
  | fin : ℚ → JsNum
  deriving DecidableEq

namespace JsNum

/-- Math.floor on a JavaScript number: NaN and infinities are fixed points. -/
def jsFloor : JsNum → JsNum
  | nan => nan
  | inf => inf
  | ninf => ninf
  | fin q => fin (⌊q⌋ : ℤ)

/-- isNaN test. -/
def isNaNb : JsNum → Bool
  | nan => true
  | _ => false

/-- JavaScript comparison x <= c with a finite bound: false for NaN. -/
def leb : JsNum → ℚ → Bool
  | nan, _ => false
  | inf, _ => false
  | ninf, _ => true
  | fin q, c => decide (q ≤ c)

/-- Number.isFinite test. -/
def isFiniteb : JsNum → Bool
  | fin _ => true
  | _ => false

/-- JavaScript comparison x < c with a finite bound: false for NaN. -/
def ltb : JsNum → ℚ → Bool
  | nan, _ => false
  | inf, _ => false
  | ninf, _ => true
  | fin q, c => decide (q < c)

end JsNum

/-! ## Configuration model (src/game/config.ts) -/

/-- The closed set of unit keys. -/
inductive UnitKey where
  | harvesters | foundries | fabricators | archives | signalRelays | stabilizers
  deriving DecidableEq

/-- Resource amounts (src/game/config.ts, ResourceState). -/
structure ResourceState where
  metal : ℚ
  energy : ℚ
  data : ℚ
  probes : ℚ
  entropy : ℚ
  distance : ℚ
  deriving DecidableEq

/-- Purchased upgrades (src/game/config.ts, UpgradeState). -/
structure UpgradeState where
  autonomy : Bool
  dysonSheath : Bool
  autoforge : Bool
  archiveBloom : Bool
  quantumMemory : Bool
  stellarCartography : Bool
  deriving DecidableEq

/-- Prestige state as the engine receives it at runtime.  The TypeScript
declaration promises four numeric fields, but `computeProduction` defends
against absent fields with `?? 0`, so each field is modelled as optional
(none = undefined). -/
structure PrestigeIn where
  cycles : Option ℚ
  storedKnowledge : Option ℚ
  forks : Option ℚ
  primeArchives : Option ℚ
  deriving DecidableEq

/-- INITIAL_RESOURCES from config.ts. -/
def INITIAL_RESOURCES : ResourceState :=
  { metal := 95, energy := 45, data := 0, probes := 6, entropy := 0.03, distance := 0 }

/-- INITIAL_UNITS from config.ts. -/
def INITIAL_UNITS : UnitKey → ℚ
  | .harvesters => 2
  | _ => 0

/-- INITIAL_UPGRADES from config.ts (all unpurchased). -/
def INITIAL_UPGRADES : UpgradeState :=
  { autonomy := false, dysonSheath := false, autoforge := false,
    archiveBloom := false, quantumMemory := false, stellarCartography := false }

/-- INITIAL_PRESTIGE from config.ts (all zero), in the input shape of the engine. -/
def INITIAL_PRESTIGE : PrestigeIn :=
  { cycles := some 0, storedKnowledge := some 0, forks := some 0, primeArchives := some 0 }

/-! ## Production engine (src/game/engine.ts) -/

/-- Snapshot returned by computeProduction (engine.ts, ProductionSnapshot). -/
structure ProductionSnapshot where
  metal : ℚ
  energy : ℚ
  data : ℚ
  probes : ℚ
  distance : ℚ
  entropyChange : ℚ
  latencyFactor : ℚ
  productionFactor : ℚ
  deriving DecidableEq

/-- clamp from engine.ts: Math.max(lo, Math.min(hi, v)). -/
def clamp (v lo hi : ℚ) : ℚ := max lo (min hi v)

/-!
computeProduction (engine.ts, lines 46-111) is translated term by term; each
local `const` of the source becomes a named definition below, so that the
theorems can speak about the individual factors.
-/

/-- The resonanceBoost local of computeProduction (with the nullish-zero
prestige normalization applied to the fields it reads). -/
def resonanceBoost (prestige : PrestigeIn) : ℚ :=
  1 + prestige.forks.getD 0 * 0.35 + prestige.primeArchives.getD 0 * 0.22

/-- The cycleBoost local of computeProduction. -/
def cycleBoost (prestige : PrestigeIn) : ℚ :=
  (1 + prestige.cycles.getD 0 * 0.55 + prestige.storedKnowledge.getD 0 * 0.15) *
    resonanceBoost prestige

/-- The signalBonus local of computeProduction. -/
def signalBonus (units : UnitKey → ℚ) (upgrades : UpgradeState) : ℚ :=
  1 + units .signalRelays * 0.22 + (if upgrades.autonomy then 0.42 else 0)

/-- The baseLatencyFactor local of computeProduction. -/
def baseLatencyFactor (resources : ResourceState) (units : UnitKey → ℚ)
    (upgrades : UpgradeState) : ℚ :=
  1 / (1 + max 0 (resources.distance - signalBonus units upgrades * 105) /
    (210 + signalBonus units upgrades * 90))

/-- The latencyFactor local of computeProduction. -/
def latencyFactor (resources : ResourceState) (units : UnitKey → ℚ)
    (upgrades : UpgradeState) : ℚ :=
  if upgrades.autonomy ∧ baseLatencyFactor resources units upgrades < 1 then
    baseLatencyFactor resources units upgrades +
      (1 - baseLatencyFactor resources units upgrades) * 0.25
  else baseLatencyFactor resources units upgrades

/-- The entropyPressure local of computeProduction (with the
entropyPressureBase and entropyDamping sub-locals inlined). -/
def entropyPressure (resources : ResourceState) (upgrades : UpgradeState)
    (prestige : PrestigeIn) : ℚ :=
  let entropyPressureBase := 0.01 + resources.distance / 9200
  let entropyDamping := max 0.65 (1 - prestige.primeArchives.getD 0 * 0.06)
  if upgrades.stellarCartography ∨ prestige.primeArchives.getD 0 > 0 then
    entropyPressureBase * min 1 (0.82 * entropyDamping)
  else entropyPressureBase * entropyDamping

/-- The entropyMitigation local of computeProduction. -/
def entropyMitigation (units : UnitKey → ℚ) (upgrades : UpgradeState) : ℚ :=
  units .stabilizers * 0.022 + (if upgrades.stellarCartography then 0.012 else 0)

/-- The entropyPenalty local of computeProduction. -/
def entropyPenalty (resources : ResourceState) (upgrades : UpgradeState) : ℚ :=
  max 0.28 (1 - min 0.82 resources.entropy * (if upgrades.quantumMemory then 0.55 else 0.7))

/-- The delayCompensation local of computeProduction. -/
def delayCompensation (resources : ResourceState) (units : UnitKey → ℚ)
    (upgrades : UpgradeState) : ℚ :=
  if upgrades.autonomy ∧ baseLatencyFactor resources units upgrades < 0.999 then 1.2 else 1

/-- The productionFactor local of computeProduction. -/
def productionFactor (resources : ResourceState) (units : UnitKey → ℚ)
    (upgrades : UpgradeState) (prestige : PrestigeIn) : ℚ :=
  cycleBoost prestige * latencyFactor resources units upgrades *
    entropyPenalty resources upgrades * delayCompensation resources units upgrades

/-- computeProduction from engine.ts, lines 46-111. -/
def computeProduction (resources : ResourceState) (units : UnitKey → ℚ)
    (upgrades : UpgradeState) (prestige : PrestigeIn) : ProductionSnapshot :=
  let energyMultiplier := if upgrades.dysonSheath then 1.42 else 1
  let probeMultiplier := if upgrades.autoforge then 1.5 else 1
  let dataMultiplier :=
    (if upgrades.archiveBloom then 1.62 else 1) * (1 + prestige.primeArchives.getD 0 * 0.05)
  let cartographyExplorationBonus :=
    (if upgrades.stellarCartography then 1.14 else 1) * (1 + prestige.forks.getD 0 * 0.04)
  { metal := (5.5 + units .harvesters * 11 + units .foundries * 2) *
      productionFactor resources units upgrades prestige
    energy := (units .foundries * 7.2 * energyMultiplier + units .harvesters * 1.8) *
      productionFactor resources units upgrades prestige
    data := (units .archives * 1.7 * dataMultiplier + max 0 (resources.distance - 32) * 0.022
      + 0.1) * productionFactor resources units upgrades prestige
    probes := (units .fabricators * 1.05 * probeMultiplier + resources.probes * 0.015) *
      productionFactor resources units upgrades prestige
    distance := (resources.probes *
        (0.1 + units .signalRelays * 0.0043 + (if upgrades.autonomy then 0.026 else 0)) +
        units .fabricators * 0.017 + units .archives * 0.005) *
      latencyFactor resources units upgrades * cartographyExplorationBonus
    entropyChange := entropyPressure resources upgrades prestige -
      entropyMitigation units upgrades
    latencyFactor := latencyFactor resources units upgrades
    productionFactor := productionFactor resources units upgrades prestige }

/-- The log returned by simulateOfflineProgress, with its information content.
The source renders this to a string (either the no-offline-time message or
the recovered-resources message); the digit formatting (fmt/toFixed) is
presentation-level and not modelled. -/
inductive OfflineLog where
  | noOfflineTime : OfflineLog
  | recovered (metal energy data probes seconds : ℚ) : OfflineLog
  deriving DecidableEq

/-- Cap of the floored offline seconds at MAX = 24*60*60 (engine.ts line 138):
`if (seconds > MAX) seconds = MAX`.  Only a finite value or +Infinity can
reach this point (NaN and -Infinity are rejected by the guard on line 135);
+Infinity compares greater than MAX and is replaced by MAX. -/
def capSeconds : JsNum → ℚ
  | .fin q => if q > 86400 then 86400 else q
  | _ => 86400

/-- One iteration of the for-loop in simulateOfflineProgress
(engine.ts lines 146-159). -/
def applyStep (r : ResourceState) (units : UnitKey → ℚ) (upgrades : UpgradeState)
    (prestige : PrestigeIn) (thisStep : ℚ) : ResourceState :=
  let prod := computeProduction r units upgrades prestige
  { metal := r.metal + prod.metal * thisStep
    energy := r.energy + prod.energy * thisStep
    data := r.data + prod.data * thisStep
    probes := r.probes + prod.probes * thisStep
    entropy := clamp (r.entropy + prod.entropyChange * thisStep) 0 0.88
    distance := r.distance + prod.distance * thisStep }

/-- The for-loop of simulateOfflineProgress: run n more iterations starting at
loop index i.  Each iteration recomputes the production snapshot at the
current state, with thisStep = min(step, seconds - i*step). -/
def simSteps (units : UnitKey → ℚ) (upgrades : UpgradeState) (prestige : PrestigeIn)
    (seconds step : ℚ) : ℕ → ℕ → ResourceState → ResourceState
  | 0, _, r => r
  | n+1, i, r =>
      let remaining := seconds - (i : ℚ) * step
      let thisStep := min step remaining
      simSteps units upgrades prestige seconds step n (i+1)
        (applyStep r units upgrades prestige thisStep)

/-- The body of simulateOfflineProgress after the guard (engine.ts lines
140-183), for an already floored and capped duration s: pick the step size
(the supplied stepSec, or ceil(s/120), clamped into [10, 60]), run
ceil(s/step) Euler steps, and report the resource deltas. -/
def simCore (resources : ResourceState) (units : UnitKey → ℚ)
    (upgrades : UpgradeState) (prestige : PrestigeIn) (s : ℚ)
    (stepSec : Option ℚ) : ResourceState × OfflineLog :=
  let step : ℚ := clamp (stepSec.getD ((⌈s / 120⌉ : ℤ) : ℚ)) 10 60
  let steps : ℕ := (⌈s / step⌉ : ℤ).toNat
  let final := simSteps units upgrades prestige s step steps 0 resources
  (final, .recovered (final.metal - resources.metal) (final.energy - resources.energy)
    (final.data - resources.data) (final.probes - resources.probes) s)

/-- simulateOfflineProgress from engine.ts, lines 125-184.  The impure clock
and string formatting aside, this is a direct translation: floor the elapsed
seconds, reject NaN and non-positive durations, cap at 24h, then run the
stepped simulation simCore. -/
def simulateOfflineProgress (resources : ResourceState) (units : UnitKey → ℚ)
    (upgrades : UpgradeState) (prestige : PrestigeIn) (offlineSeconds : JsNum)
    (stepSec : Option ℚ) : ResourceState × OfflineLog :=
  let seconds := offlineSeconds.jsFloor
  if seconds.isNaNb || seconds.leb 0 then
    (resources, .noOfflineTime)
  else
    simCore resources units upgrades prestige (capSeconds seconds) stepSec

/-! ## Claim C10: prestige normalization in computeProduction -/

/-- Replace each absent prestige field by 0 (the `?? 0` defaults at the top of
computeProduction). -/
def normalizePrestige (p : PrestigeIn) : PrestigeIn :=
  { cycles := some (p.cycles.getD 0)
    storedKnowledge := some (p.storedKnowledge.getD 0)
    forks := some (p.forks.getD 0)
    primeArchives := some (p.primeArchives.getD 0) }

/-- Claim C10: computeProduction treats every absent prestige field as 0: its
result on any prestige input equals its result on the input with each missing
field replaced by 0; in particular a two-field prestige object (the shape
declared in save.ts, lines 276-279) is accepted with forks = 0 and
primeArchives = 0. -/
theorem C10_prestige_normalization (res : ResourceState) (units : UnitKey → ℚ)
    (upgrades : UpgradeState) (p : PrestigeIn) (c k : ℚ) :
    computeProduction res units upgrades p =
      computeProduction res units upgrades (normalizePrestige p) ∧
    computeProduction res units upgrades
        { cycles := some c, storedKnowledge := some k, forks := none, primeArchives := none } =
      computeProduction res units upgrades
        { cycles := some c, storedKnowledge := some k, forks := some 0, primeArchives := some 0 } :=
  ⟨rfl, rfl⟩

/-! ## Claim C8: autoforge multiplier scenario -/

/-- Resources of the C8 scenario: initial defaults with entropy and distance
zeroed (metal 95, energy 45, data 0, probes 6). -/
def autoforgeRes : ResourceState :=
  { INITIAL_RESOURCES with entropy := 0, distance := 0 }

/-- Unit counts of the C8 scenario: one fabricator, all else initial. -/
def autoforgeUnits : UnitKey → ℚ
  | .fabricators => 1
  | k => INITIAL_UNITS k

/-- Upgrades of the C8 scenario: only autoforge purchased. -/
def autoforgeUpgrades : UpgradeState :=
  { INITIAL_UPGRADES with autoforge := true }

/-- Claim C8 as stated is false: in the autoforge scenario the probe rate is
not 1.05 * 1.5 = 1.575, because the initial 6 probes contribute the
self-replication term 6 * 0.015 = 0.09. -/
theorem C8_autoforge_counterexample :
    ¬ (computeProduction autoforgeRes autoforgeUnits autoforgeUpgrades
        INITIAL_PRESTIGE).probes = 1.575 := by
  norm_num [computeProduction, productionFactor, cycleBoost, resonanceBoost,
    latencyFactor, baseLatencyFactor, signalBonus, entropyPenalty, delayCompensation,
    autoforgeRes, autoforgeUnits, autoforgeUpgrades,
    INITIAL_RESOURCES, INITIAL_UNITS, INITIAL_UPGRADES, INITIAL_PRESTIGE]

/-- Claim C8 amended: in the autoforge scenario productionFactor = 1 and the
probe rate is 1.05 * 1.5 + 6 * 0.015 = 1.665 (the claimed fabricator term
plus the probe self-replication term). -/
theorem C8_autoforge_amended :
    (computeProduction autoforgeRes autoforgeUnits autoforgeUpgrades
        INITIAL_PRESTIGE).productionFactor = 1 ∧
    (computeProduction autoforgeRes autoforgeUnits autoforgeUpgrades
        INITIAL_PRESTIGE).probes = 1.665 := by
  constructor <;>
    norm_num [computeProduction, productionFactor, cycleBoost, resonanceBoost,
      latencyFactor, baseLatencyFactor, signalBonus, entropyPenalty, delayCompensation,
      autoforgeRes, autoforgeUnits, autoforgeUpgrades,
      INITIAL_RESOURCES, INITIAL_UNITS, INITIAL_UPGRADES, INITIAL_PRESTIGE]

/-! ## Claim C2: offline cap at 86400 seconds -/

/-- Claim C2: for any offlineSeconds greater than 86400 the simulation result
(resources and log) is identical to the result for exactly 86400 seconds; the
excess time is discarded by the 24h cap. -/
theorem C2_offline_cap (q : ℚ) (h : 86400 < q) (res : ResourceState)
    (units : UnitKey → ℚ) (upgrades : UpgradeState) (prestige : PrestigeIn)
    (st : Option ℚ) :
    simulateOfflineProgress res units upgrades prestige (.fin q) st =
      simulateOfflineProgress res units upgrades prestige (.fin 86400) st := by
  have hfl : (86400 : ℤ) ≤ ⌊q⌋ := Int.le_floor.mpr (by exact_mod_cast h.le)
  have hflq : (86400 : ℚ) ≤ ((⌊q⌋ : ℤ) : ℚ) := by exact_mod_cast hfl
  have h0 : ¬ ((⌊q⌋ : ℤ) : ℚ) ≤ 0 := by linarith
  have hc : capSeconds (JsNum.fin ((⌊q⌋ : ℤ) : ℚ)) = 86400 := by
    simp only [capSeconds]
    split_ifs with hgt
    · rfl
    · push_neg at hgt
      linarith
  have hc' : capSeconds (JsNum.fin ((⌊(86400 : ℚ)⌋ : ℤ) : ℚ)) = 86400 := by
    norm_num [capSeconds]
  unfold simulateOfflineProgress
  simp only [JsNum.jsFloor, JsNum.isNaNb, JsNum.leb, Bool.false_or,
    decide_eq_false h0, decide_eq_false (show ¬ ((⌊(86400:ℚ)⌋ : ℤ) : ℚ) ≤ 0 by norm_num)]
  rw [hc, hc']

/-- Witness for C2 at the concrete duration 10,000,000 seconds from the spec. -/
theorem C2_offline_cap_witness :
    (86400 : ℚ) < 10000000 ∧
    simulateOfflineProgress INITIAL_RESOURCES INITIAL_UNITS INITIAL_UPGRADES
        INITIAL_PRESTIGE (.fin 10000000) none =
      simulateOfflineProgress INITIAL_RESOURCES INITIAL_UNITS INITIAL_UPGRADES
        INITIAL_PRESTIGE (.fin 86400) none :=
  ⟨by norm_num, C2_offline_cap 10000000 (by norm_num) _ _ _ _ _⟩

/-! ## Claim C1: entropy clamp invariant -/

/-- After any iteration of the offline loop the entropy lies in [0, 0.88],
because every entropy mutation goes through clamp(_, 0, 0.88). -/
theorem simSteps_entropy_bounds (units : UnitKey → ℚ) (upgrades : UpgradeState)
    (prestige : PrestigeIn) (seconds step : ℚ) :
    ∀ n i (r : ResourceState), 0 ≤ r.entropy → r.entropy ≤ 0.88 →
      0 ≤ (simSteps units upgrades prestige seconds step n i r).entropy ∧
      (simSteps units upgrades prestige seconds step n i r).entropy ≤ 0.88 := by
  intro n
  induction n with
  | zero => intro i r h0 h1; exact ⟨h0, h1⟩
  | succ m ih =>
      intro i r h0 h1
      rw [simSteps]
      apply ih
      · exact le_max_left 0 _
      · exact max_le (by norm_num) (min_le_left _ _)

/-- Claim C1: if the input entropy is in [0, 0.88] and the offline duration is
non-negative, then after every simulation step of simulateOfflineProgress,
and in the final returned resources, the entropy stays in [0, 0.88]. -/
theorem C1_entropy_clamp (res : ResourceState) (units : UnitKey → ℚ)
    (upgrades : UpgradeState) (prestige : PrestigeIn) (q : ℚ) (st : Option ℚ)
    (h0 : 0 ≤ res.entropy) (h1 : res.entropy ≤ 0.88) (_hq : 0 ≤ q) :
    (∀ seconds step n i (r : ResourceState), 0 ≤ r.entropy → r.entropy ≤ 0.88 →
      0 ≤ (simSteps units upgrades prestige seconds step n i r).entropy ∧
      (simSteps units upgrades prestige seconds step n i r).entropy ≤ 0.88) ∧
    0 ≤ (simulateOfflineProgress res units upgrades prestige (.fin q) st).1.entropy ∧
    (simulateOfflineProgress res units upgrades prestige (.fin q) st).1.entropy ≤ 0.88 := by
  refine ⟨fun seconds step => simSteps_entropy_bounds units upgrades prestige seconds step, ?_⟩
  unfold simulateOfflineProgress
  dsimp only
  split
  · exact ⟨h0, h1⟩
  · exact simSteps_entropy_bounds units upgrades prestige _ _ _ _ res h0 h1

/-- Witness for C1 at the initial resources and zero offline seconds. -/
theorem C1_entropy_clamp_witness :
    (0 ≤ INITIAL_RESOURCES.entropy ∧ INITIAL_RESOURCES.entropy ≤ 0.88 ∧ (0:ℚ) ≤ 0) ∧
    ((∀ seconds step n i (r : ResourceState), 0 ≤ r.entropy → r.entropy ≤ 0.88 →
      0 ≤ (simSteps INITIAL_UNITS INITIAL_UPGRADES INITIAL_PRESTIGE seconds step n i r).entropy ∧
      (simSteps INITIAL_UNITS INITIAL_UPGRADES INITIAL_PRESTIGE seconds step n i r).entropy ≤ 0.88) ∧
    0 ≤ (simulateOfflineProgress INITIAL_RESOURCES INITIAL_UNITS INITIAL_UPGRADES
      INITIAL_PRESTIGE (.fin 0) none).1.entropy ∧
    (simulateOfflineProgress INITIAL_RESOURCES INITIAL_UNITS INITIAL_UPGRADES
      INITIAL_PRESTIGE (.fin 0) none).1.entropy ≤ 0.88) :=
  ⟨⟨by norm_num [INITIAL_RESOURCES], by norm_num [INITIAL_RESOURCES], le_refl 0⟩,
    C1_entropy_clamp INITIAL_RESOURCES INITIAL_UNITS INITIAL_UPGRADES INITIAL_PRESTIGE 0 none
      (by norm_num [INITIAL_RESOURCES]) (by norm_num [INITIAL_RESOURCES]) (le_refl 0)⟩

/-! ## Non-negativity of production rates -/

/-- All four prestige counters (after `?? 0` normalization) are non-negative. -/
def PrestigeNonneg (p : PrestigeIn) : Prop :=
  0 ≤ p.cycles.getD 0 ∧ 0 ≤ p.storedKnowledge.getD 0 ∧
  0 ≤ p.forks.getD 0 ∧ 0 ≤ p.primeArchives.getD 0

theorem signalBonus_ge_one (units : UnitKey → ℚ) (upgrades : UpgradeState)
    (hu : ∀ k, 0 ≤ units k) : 1 ≤ signalBonus units upgrades := by
  unfold signalBonus
  have h1 : 0 ≤ units .signalRelays * 0.22 :=
    mul_nonneg (hu .signalRelays) (by norm_num)
  split_ifs <;> linarith

theorem baseLatencyFactor_pos (resources : ResourceState) (units : UnitKey → ℚ)
    (upgrades : UpgradeState) (hu : ∀ k, 0 ≤ units k) :
    0 < baseLatencyFactor resources units upgrades := by
  unfold baseLatencyFactor
  have hsb := signalBonus_ge_one units upgrades hu
  have h1 : (0:ℚ) < 210 + signalBonus units upgrades * 90 := by linarith
  have h2 : (0:ℚ) ≤ max 0 (resources.distance - signalBonus units upgrades * 105) :=
    le_max_left 0 _
  have h3 := div_nonneg h2 h1.le
  have h4 : (0:ℚ) < 1 + max 0 (resources.distance - signalBonus units upgrades * 105) /
      (210 + signalBonus units upgrades * 90) := by linarith
  exact one_div_pos.mpr h4

theorem baseLatencyFactor_le_one (resources : ResourceState) (units : UnitKey → ℚ)
    (upgrades : UpgradeState) (hu : ∀ k, 0 ≤ units k) :
    baseLatencyFactor resources units upgrades ≤ 1 := by
  unfold baseLatencyFactor
  have hsb := signalBonus_ge_one units upgrades hu
  have h1 : (0:ℚ) < 210 + signalBonus units upgrades * 90 := by linarith
  have h2 : (0:ℚ) ≤ max 0 (resources.distance - signalBonus units upgrades * 105) :=
    le_max_left 0 _
  have h3 := div_nonneg h2 h1.le
  have h4 : (0:ℚ) < 1 + max 0 (resources.distance - signalBonus units upgrades * 105) /
      (210 + signalBonus units upgrades * 90) := by linarith
  rw [div_le_one h4]
  linarith

theorem latencyFactor_nonneg (resources : ResourceState) (units : UnitKey → ℚ)
    (upgrades : UpgradeState) (hu : ∀ k, 0 ≤ units k) :
    0 ≤ latencyFactor resources units upgrades := by
  unfold latencyFactor
  have h1 := baseLatencyFactor_pos resources units upgrades hu
  have h2 := baseLatencyFactor_le_one resources units upgrades hu
  split_ifs <;> linarith

theorem cycleBoost_nonneg (p : PrestigeIn) (hp : PrestigeNonneg p) :
    0 ≤ cycleBoost p := by
  obtain ⟨hc, hk, hf, ha⟩ := hp
  unfold cycleBoost resonanceBoost
  have h1 : 0 ≤ p.cycles.getD 0 * 0.55 := mul_nonneg hc (by norm_num)
  have h2 : 0 ≤ p.storedKnowledge.getD 0 * 0.15 := mul_nonneg hk (by norm_num)
  have h3 : 0 ≤ p.forks.getD 0 * 0.35 := mul_nonneg hf (by norm_num)
  have h4 : 0 ≤ p.primeArchives.getD 0 * 0.22 := mul_nonneg ha (by norm_num)
  nlinarith

theorem entropyPenalty_nonneg (resources : ResourceState) (upgrades : UpgradeState) :
    0 ≤ entropyPenalty resources upgrades :=
  le_trans (by norm_num) (le_max_left 0.28 _)

theorem delayCompensation_nonneg (resources : ResourceState) (units : UnitKey → ℚ)
    (upgrades : UpgradeState) : 0 ≤ delayCompensation resources units upgrades := by
  unfold delayCompensation
  split_ifs <;> norm_num

theorem productionFactor_nonneg (resources : ResourceState) (units : UnitKey → ℚ)
    (upgrades : UpgradeState) (p : PrestigeIn) (hu : ∀ k, 0 ≤ units k)
    (hp : PrestigeNonneg p) : 0 ≤ productionFactor resources units upgrades p :=
  mul_nonneg (mul_nonneg (mul_nonneg (cycleBoost_nonneg p hp)
    (latencyFactor_nonneg resources units upgrades hu))
    (entropyPenalty_nonneg resources upgrades))
    (delayCompensation_nonneg resources units upgrades)

/-- For non-negative probes, unit counts and prestige, all five accumulating
production rates are non-negative (entropyChange is excluded: it can be
negative when mitigation exceeds pressure). -/
theorem computeProduction_rates_nonneg (resources : ResourceState)
    (units : UnitKey → ℚ) (upgrades : UpgradeState) (p : PrestigeIn)
    (hprob : 0 ≤ resources.probes) (hu : ∀ k, 0 ≤ units k) (hp : PrestigeNonneg p) :
    0 ≤ (computeProduction resources units upgrades p).metal ∧
    0 ≤ (computeProduction resources units upgrades p).energy ∧
    0 ≤ (computeProduction resources units upgrades p).data ∧
    0 ≤ (computeProduction resources units upgrades p).probes ∧
    0 ≤ (computeProduction resources units upgrades p).distance := by
  obtain ⟨hc, hk, hf, ha⟩ := hp
  have hPF := productionFactor_nonneg resources units upgrades p hu ⟨hc, hk, hf, ha⟩
  have hlat := latencyFactor_nonneg resources units upgrades hu
  have hharv := hu .harvesters
  have hfound := hu .foundries
  have hfab := hu .fabricators
  have harch := hu .archives
  have hrel := hu .signalRelays
  have hmax32 : (0:ℚ) ≤ max 0 (resources.distance - 32) := le_max_left 0 _
  simp only [computeProduction]
  refine ⟨?_, ?_, ?_, ?_, ?_⟩
  · exact mul_nonneg (by nlinarith) hPF
  · have : (0:ℚ) ≤ units .foundries * 7.2 * (if upgrades.dysonSheath then (1.42:ℚ) else 1) := by
      split_ifs <;> nlinarith
    exact mul_nonneg (by nlinarith) hPF
  · have hdm : (0:ℚ) ≤ (if upgrades.archiveBloom then (1.62:ℚ) else 1) *
        (1 + p.primeArchives.getD 0 * 0.05) := by
      split_ifs <;> nlinarith
    have : (0:ℚ) ≤ units .archives * 1.7 * ((if upgrades.archiveBloom then (1.62:ℚ) else 1) *
        (1 + p.primeArchives.getD 0 * 0.05)) := by nlinarith
    exact mul_nonneg (by nlinarith) hPF
  · have : (0:ℚ) ≤ units .fabricators * 1.05 * (if upgrades.autoforge then (1.5:ℚ) else 1) := by
      split_ifs <;> nlinarith
    exact mul_nonneg (by nlinarith) hPF
  · have hcart : (0:ℚ) ≤ (if upgrades.stellarCartography then (1.14:ℚ) else 1) *
        (1 + p.forks.getD 0 * 0.04) := by
      split_ifs <;> nlinarith
    have hinner : (0:ℚ) ≤ resources.probes *
        (0.1 + units .signalRelays * 0.0043 + (if upgrades.autonomy then (0.026:ℚ) else 0)) +
        units .fabricators * 0.017 + units .archives * 0.005 := by
      have : (0:ℚ) ≤ 0.1 + units .signalRelays * 0.0043 +
          (if upgrades.autonomy then (0.026:ℚ) else 0) := by
        split_ifs <;> nlinarith
      nlinarith
    exact mul_nonneg (mul_nonneg hinner hlat) hcart

/-! ## Monotonicity of the offline loop relative to its starting state -/

/-- Running the loop never decreases metal, energy, data, probes or distance,
provided probes start non-negative, units and prestige are non-negative, the
step is positive, and every executed iteration still has positive remaining
time (hypothesis ((i + n) - 1) * step < seconds). -/
theorem simSteps_le (units : UnitKey → ℚ) (upgrades : UpgradeState) (p : PrestigeIn)
    (hu : ∀ k, 0 ≤ units k) (hp : PrestigeNonneg p) (seconds step : ℚ)
    (hstep : 0 < step) :
    ∀ (n i : ℕ) (r : ResourceState), 0 ≤ r.probes →
      ((i : ℚ) + (n : ℚ) - 1) * step < seconds →
      0 ≤ (simSteps units upgrades p seconds step n i r).probes ∧
      r.metal ≤ (simSteps units upgrades p seconds step n i r).metal ∧
      r.energy ≤ (simSteps units upgrades p seconds step n i r).energy ∧
      r.data ≤ (simSteps units upgrades p seconds step n i r).data ∧
      r.probes ≤ (simSteps units upgrades p seconds step n i r).probes ∧
      r.distance ≤ (simSteps units upgrades p seconds step n i r).distance := by
  intro n
  induction n with
  | zero =>
      intro i r h0 _
      simp only [simSteps]
      exact ⟨h0, le_refl _, le_refl _, le_refl _, le_refl _, le_refl _⟩
  | succ m ih =>
      intro i r h0 hcond
      have hle : ((i : ℚ)) * step ≤ ((i : ℚ) + (m : ℚ)) * step := by
        have : (i : ℚ) ≤ (i : ℚ) + (m : ℚ) := le_add_of_nonneg_right (Nat.cast_nonneg m)
        exact mul_le_mul_of_nonneg_right this hstep.le
      have hrem : 0 < seconds - (i : ℚ) * step := by
        push_cast at hcond
        nlinarith
      have hdt : 0 < min step (seconds - (i : ℚ) * step) := lt_min hstep hrem
      rw [simSteps]
      have hnn := computeProduction_rates_nonneg r units upgrades p h0 hu hp
      obtain ⟨hm, he, hd, hpr, hdist⟩ := hnn
      set dt := min step (seconds - (i : ℚ) * step) with hdtdef
      have happly : 0 ≤ (applyStep r units upgrades p dt).probes ∧
          r.metal ≤ (applyStep r units upgrades p dt).metal ∧
          r.energy ≤ (applyStep r units upgrades p dt).energy ∧
          r.data ≤ (applyStep r units upgrades p dt).data ∧
          r.probes ≤ (applyStep r units upgrades p dt).probes ∧
          r.distance ≤ (applyStep r units upgrades p dt).distance := by
        simp only [applyStep]
        refine ⟨by nlinarith, by nlinarith, by nlinarith, by nlinarith, by nlinarith, by nlinarith⟩
      have hcond2 : (((i + 1 : ℕ)) : ℚ) * step ≤ seconds →
          True := fun _ => trivial
      have hih := ih (i + 1) (applyStep r units upgrades p dt) happly.1 (by
        push_cast at hcond ⊢
        nlinarith)
      obtain ⟨f0, f1, f2, f3, f4, f5⟩ := hih
      exact ⟨f0, le_trans happly.2.1 f1, le_trans happly.2.2.1 f2,
        le_trans happly.2.2.2.1 f3, le_trans happly.2.2.2.2.1 f4,
        le_trans happly.2.2.2.2.2 f5⟩

/-- The clamped step size is always positive (clamp into [10, 60]). -/
theorem step_pos (x : ℚ) : 0 < clamp x 10 60 :=
  lt_of_lt_of_le (by norm_num) (le_max_left 10 (min 60 x))

/-- capSeconds of a positive finite value is positive. -/
theorem capSeconds_pos (x : ℚ) (hx : 0 < x) : 0 < capSeconds (.fin x) := by
  simp only [capSeconds]
  split_ifs with h
  · norm_num
  · exact hx

/-- The stepped simulation never decreases metal, energy, data, probes or
distance below their starting values (positive total duration). -/
theorem simCore_le (res : ResourceState) (units : UnitKey → ℚ)
    (upgrades : UpgradeState) (p : PrestigeIn) (s : ℚ) (st : Option ℚ)
    (hs : 0 < s) (hres : 0 ≤ res.probes) (hu : ∀ k, 0 ≤ units k)
    (hp : PrestigeNonneg p) :
    res.metal ≤ (simCore res units upgrades p s st).1.metal ∧
    res.energy ≤ (simCore res units upgrades p s st).1.energy ∧
    res.data ≤ (simCore res units upgrades p s st).1.data ∧
    res.probes ≤ (simCore res units upgrades p s st).1.probes ∧
    res.distance ≤ (simCore res units upgrades p s st).1.distance := by
  have hstep : 0 < clamp (st.getD ((⌈s / 120⌉ : ℤ) : ℚ)) 10 60 := step_pos _
  set step := clamp (st.getD ((⌈s / 120⌉ : ℤ) : ℚ)) 10 60 with hstepdef
  have hceil : 0 < ⌈s / step⌉ := Int.ceil_pos.mpr (div_pos hs hstep)
  have hcast : (((⌈s / step⌉ : ℤ).toNat : ℕ) : ℚ) = ((⌈s / step⌉ : ℤ) : ℚ) := by
    exact_mod_cast congrArg (fun z => ((z : ℤ) : ℚ)) (Int.toNat_of_nonneg hceil.le)
  have hcond : ((0 : ℚ) + (((⌈s / step⌉ : ℤ).toNat : ℕ) : ℚ) - 1) * step < s := by
    rw [hcast]
    have h1 : ((⌈s / step⌉ : ℤ) : ℚ) < s / step + 1 := Int.ceil_lt_add_one _
    have h2 : ((⌈s / step⌉ : ℤ) : ℚ) - 1 < s / step := by linarith
    calc ((0 : ℚ) + ((⌈s / step⌉ : ℤ) : ℚ) - 1) * step
        = (((⌈s / step⌉ : ℤ) : ℚ) - 1) * step := by ring
      _ < (s / step) * step := mul_lt_mul_of_pos_right (by linarith) hstep
      _ = s := div_mul_cancel₀ s hstep.ne'
  have h := simSteps_le units upgrades p hu hp s step hstep
    ((⌈s / step⌉ : ℤ).toNat) 0 res hres (by exact_mod_cast hcond)
  simp only [simCore]
  exact h.2

/-- Claim C7 amended: for non-negative inputs the offline simulation never
decreases metal, energy, data, probes or distance below their input values,
for every offline duration and step choice.  (Monotonicity in offlineSeconds
across two runs fails: the default step size changes with offlineSeconds,
see the counterexample; entropy can also decrease outright.) -/
theorem C7_step_monotonicity_amended (res : ResourceState) (units : UnitKey → ℚ)
    (upgrades : UpgradeState) (p : PrestigeIn) (q : ℚ) (st : Option ℚ)
    (hres : 0 ≤ res.probes) (hu : ∀ k, 0 ≤ units k) (hp : PrestigeNonneg p) :
    res.metal ≤ (simulateOfflineProgress res units upgrades p (.fin q) st).1.metal ∧
    res.energy ≤ (simulateOfflineProgress res units upgrades p (.fin q) st).1.energy ∧
    res.data ≤ (simulateOfflineProgress res units upgrades p (.fin q) st).1.data ∧
    res.probes ≤ (simulateOfflineProgress res units upgrades p (.fin q) st).1.probes ∧
    res.distance ≤ (simulateOfflineProgress res units upgrades p (.fin q) st).1.distance := by
  unfold simulateOfflineProgress
  dsimp only
  split
  · exact ⟨le_refl _, le_refl _, le_refl _, le_refl _, le_refl _⟩
  · next hguard =>
      have hpos : 0 < ((⌊q⌋ : ℤ) : ℚ) := by
        simp only [JsNum.jsFloor, JsNum.isNaNb, JsNum.leb, Bool.false_or,
          decide_eq_true_eq] at hguard
        exact lt_of_not_ge hguard
      exact simCore_le res units upgrades p _ st
        (capSeconds_pos _ hpos) hres hu hp

/-- Witness for the amended C7 at the initial game state and zero seconds. -/
theorem C7_step_monotonicity_amended_witness :
    (0 ≤ INITIAL_RESOURCES.probes ∧ (∀ k, 0 ≤ INITIAL_UNITS k) ∧
      PrestigeNonneg INITIAL_PRESTIGE) ∧
    (INITIAL_RESOURCES.metal ≤ (simulateOfflineProgress INITIAL_RESOURCES INITIAL_UNITS
        INITIAL_UPGRADES INITIAL_PRESTIGE (.fin 0) none).1.metal ∧
      INITIAL_RESOURCES.energy ≤ (simulateOfflineProgress INITIAL_RESOURCES INITIAL_UNITS
        INITIAL_UPGRADES INITIAL_PRESTIGE (.fin 0) none).1.energy ∧
      INITIAL_RESOURCES.data ≤ (simulateOfflineProgress INITIAL_RESOURCES INITIAL_UNITS
        INITIAL_UPGRADES INITIAL_PRESTIGE (.fin 0) none).1.data ∧
      INITIAL_RESOURCES.probes ≤ (simulateOfflineProgress INITIAL_RESOURCES INITIAL_UNITS
        INITIAL_UPGRADES INITIAL_PRESTIGE (.fin 0) none).1.probes ∧
      INITIAL_RESOURCES.distance ≤ (simulateOfflineProgress INITIAL_RESOURCES INITIAL_UNITS
        INITIAL_UPGRADES INITIAL_PRESTIGE (.fin 0) none).1.distance) :=
  ⟨⟨by norm_num [INITIAL_RESOURCES],
    fun k => by cases k <;> norm_num [INITIAL_UNITS],
    by norm_num [PrestigeNonneg, INITIAL_PRESTIGE]⟩,
    C7_step_monotonicity_amended INITIAL_RESOURCES INITIAL_UNITS INITIAL_UPGRADES
      INITIAL_PRESTIGE 0 none (by norm_num [INITIAL_RESOURCES])
      (fun k => by cases k <;> norm_num [INITIAL_UNITS])
      (by norm_num [PrestigeNonneg, INITIAL_PRESTIGE])⟩

/-! ## Claim C3: no-op on degenerate durations -/

/-- Claim C3 amended: for NaN, -Infinity, and every non-positive finite
duration, simulateOfflineProgress returns the input resources unchanged with
the no-offline-time log and performs no simulation work.  (+Infinity, part of
the original claim, is excluded: it passes the NaN/non-positive guard and is
simulated as the full 86400-second cap, see the counterexample.) -/
theorem C3_noop_amended (res : ResourceState) (units : UnitKey → ℚ)
    (upgrades : UpgradeState) (p : PrestigeIn) (st : Option ℚ) (t : JsNum)
    (h : t = .nan ∨ t = .ninf ∨ ∃ q, t = .fin q ∧ q ≤ 0) :
    simulateOfflineProgress res units upgrades p t st = (res, .noOfflineTime) := by
  rcases h with h | h | ⟨q, rfl, hq⟩
  · subst h; rfl
  · subst h; rfl
  · have hfl : ⌊q⌋ ≤ 0 := by
      have := Int.floor_le_floor hq
      simpa using this
    unfold simulateOfflineProgress
    simp only [JsNum.jsFloor, JsNum.isNaNb, JsNum.leb, Bool.false_or]
    rw [if_pos]
    simp only [decide_eq_true_eq]
    exact_mod_cast hfl

/-- Witness for the amended C3 at duration -5. -/
theorem C3_noop_amended_witness :
    ((JsNum.fin (-5) = JsNum.nan ∨ JsNum.fin (-5) = JsNum.ninf ∨
      ∃ q, JsNum.fin (-5) = JsNum.fin q ∧ q ≤ 0)) ∧
    simulateOfflineProgress INITIAL_RESOURCES INITIAL_UNITS INITIAL_UPGRADES
      INITIAL_PRESTIGE (.fin (-5)) none = (INITIAL_RESOURCES, .noOfflineTime) :=
  ⟨Or.inr (Or.inr ⟨-5, rfl, by norm_num⟩),
    C3_noop_amended INITIAL_RESOURCES INITIAL_UNITS INITIAL_UPGRADES INITIAL_PRESTIGE
      none (.fin (-5)) (Or.inr (Or.inr ⟨-5, rfl, by norm_num⟩))⟩

/-- Claim C3 as stated is false for +Infinity: Math.floor(+Infinity) is
+Infinity, which is neither NaN nor <= 0, so the guard does not fire; the
duration is then capped to 86400 and fully simulated, changing the resources
(metal strictly grows) and producing a recovered log, not the no-op log. -/
theorem C3_noop_counterexample :
    (simulateOfflineProgress INITIAL_RESOURCES INITIAL_UNITS INITIAL_UPGRADES
        INITIAL_PRESTIGE .inf none).1 ≠ INITIAL_RESOURCES ∧
    (simulateOfflineProgress INITIAL_RESOURCES INITIAL_UNITS INITIAL_UPGRADES
        INITIAL_PRESTIGE .inf none).2 ≠ OfflineLog.noOfflineTime := by
  have hred : simulateOfflineProgress INITIAL_RESOURCES INITIAL_UNITS INITIAL_UPGRADES
      INITIAL_PRESTIGE .inf none =
      simCore INITIAL_RESOURCES INITIAL_UNITS INITIAL_UPGRADES INITIAL_PRESTIGE 86400 none :=
    rfl
  have hceil1 : (⌈(86400 : ℚ) / 120⌉ : ℤ) = 720 := by
    rw [show (86400 : ℚ) / 120 = ((720 : ℤ) : ℚ) by norm_num]
    exact Int.ceil_intCast 720
  have hstep : clamp (((720 : ℤ) : ℚ)) 10 60 = 60 := by norm_num [clamp]
  have hceil2 : (⌈(86400 : ℚ) / 60⌉ : ℤ) = 1440 := by
    rw [show (86400 : ℚ) / 60 = ((1440 : ℤ) : ℚ) by norm_num]
    exact Int.ceil_intCast 1440
  have hcore : simCore INITIAL_RESOURCES INITIAL_UNITS INITIAL_UPGRADES INITIAL_PRESTIGE
      86400 none =
      (simSteps INITIAL_UNITS INITIAL_UPGRADES INITIAL_PRESTIGE 86400 60 1440 0
        INITIAL_RESOURCES,
       .recovered
        ((simSteps INITIAL_UNITS INITIAL_UPGRADES INITIAL_PRESTIGE 86400 60 1440 0
          INITIAL_RESOURCES).metal - INITIAL_RESOURCES.metal)
        ((simSteps INITIAL_UNITS INITIAL_UPGRADES INITIAL_PRESTIGE 86400 60 1440 0
          INITIAL_RESOURCES).energy - INITIAL_RESOURCES.energy)
        ((simSteps INITIAL_UNITS INITIAL_UPGRADES INITIAL_PRESTIGE 86400 60 1440 0
          INITIAL_RESOURCES).data - INITIAL_RESOURCES.data)
        ((simSteps INITIAL_UNITS INITIAL_UPGRADES INITIAL_PRESTIGE 86400 60 1440 0
          INITIAL_RESOURCES).probes - INITIAL_RESOURCES.probes)
        86400) := by
    unfold simCore
    simp only [Option.getD, hceil1, hstep, hceil2]
    rfl
  -- the state after the first 60-second step
  have hfirst : simSteps INITIAL_UNITS INITIAL_UPGRADES INITIAL_PRESTIGE 86400 60 1440 0
      INITIAL_RESOURCES =
      simSteps INITIAL_UNITS INITIAL_UPGRADES INITIAL_PRESTIGE 86400 60 1439 1
        (applyStep INITIAL_RESOURCES INITIAL_UNITS INITIAL_UPGRADES INITIAL_PRESTIGE
          (min 60 (86400 - (0 : ℚ) * 60))) := by
    rw [show (1440 : ℕ) = 1439 + 1 from rfl, simSteps]
    norm_num
  have hr1 : (applyStep INITIAL_RESOURCES INITIAL_UNITS INITIAL_UPGRADES INITIAL_PRESTIGE
      (min 60 (86400 - (0 : ℚ) * 60))).metal = 171035 / 100 ∧
      0 ≤ (applyStep INITIAL_RESOURCES INITIAL_UNITS INITIAL_UPGRADES INITIAL_PRESTIGE
        (min 60 (86400 - (0 : ℚ) * 60))).probes := by
    constructor <;>
      norm_num [applyStep, computeProduction, productionFactor, cycleBoost, resonanceBoost,
        latencyFactor, baseLatencyFactor, signalBonus, entropyPenalty, delayCompensation,
        INITIAL_RESOURCES, INITIAL_UNITS, INITIAL_UPGRADES, INITIAL_PRESTIGE]
  have hmono := (simSteps_le INITIAL_UNITS INITIAL_UPGRADES INITIAL_PRESTIGE
    (fun k => by cases k <;> norm_num [INITIAL_UNITS])
    (by norm_num [PrestigeNonneg, INITIAL_PRESTIGE]) 86400 60 (by norm_num) 1439 1
    (applyStep INITIAL_RESOURCES INITIAL_UNITS INITIAL_UPGRADES INITIAL_PRESTIGE
      (min 60 (86400 - (0 : ℚ) * 60))) hr1.2 (by push_cast; norm_num)).2.1
  have hmetal : (171035 : ℚ) / 100 ≤
      (simSteps INITIAL_UNITS INITIAL_UPGRADES INITIAL_PRESTIGE 86400 60 1440 0
        INITIAL_RESOURCES).metal := by
    rw [hfirst]
    rw [hr1.1] at hmono
    exact hmono
  constructor
  · intro hEq
    have h95 : (simSteps INITIAL_UNITS INITIAL_UPGRADES INITIAL_PRESTIGE 86400 60 1440 0
        INITIAL_RESOURCES).metal = 95 := by
      have := congrArg ResourceState.metal hEq
      rw [hred, hcore] at this
      simpa [INITIAL_RESOURCES] using this
    rw [h95] at hmetal
    norm_num at hmetal
  · rw [hred, hcore]
    intro hlog
    exact OfflineLog.noConfusion hlog

/-! ## Claim C7: failure of monotonicity in offlineSeconds

The counterexample compares offlineSeconds = 1200 (default step 10, 120
steps) with offlineSeconds = 1201 (default step 11, 109 full steps plus one
2-second step).  The state below keeps the trajectory linear: entropy starts
at the cap 0.88 and stays there, distance stays below the latency threshold
105, and all unit counts are zero, so the probe count follows the exact
geometric recurrence p := p * (1 + 0.015 * 0.426 * dt); the coarser 11-second
discretization compounds less, and the extra second does not make up for it. -/

/-- All-zero unit counts. -/
def zeroUnits : UnitKey → ℚ := fun _ => 0

/-- Start state of the C7 counterexample. -/
def monoRes : ResourceState :=
  { metal := 0, energy := 0, data := 0, probes := 3/1000, entropy := 0.88, distance := 0 }

theorem latencyFactor_scenario (r : ResourceState) (hd : r.distance ≤ 105) :
    latencyFactor r zeroUnits INITIAL_UPGRADES = 1 := by
  unfold latencyFactor baseLatencyFactor signalBonus
  simp only [zeroUnits, INITIAL_UPGRADES, Bool.false_eq_true, false_and, if_false]
  rw [show (1 : ℚ) + 0 * 0.22 + 0 = 1 by norm_num]
  rw [max_eq_left (by linarith : r.distance - 1 * 105 ≤ 0)]
  norm_num

theorem productionFactor_scenario (r : ResourceState) (he : r.entropy = 0.88)
    (hd : r.distance ≤ 105) :
    productionFactor r zeroUnits INITIAL_UPGRADES INITIAL_PRESTIGE = 213 / 500 := by
  unfold productionFactor cycleBoost resonanceBoost entropyPenalty delayCompensation
  rw [latencyFactor_scenario r hd, he]
  unfold baseLatencyFactor signalBonus
  simp only [zeroUnits, INITIAL_UPGRADES, INITIAL_PRESTIGE, Bool.false_eq_true, false_and,
    if_false, Option.getD_some]
  rw [show min (0.82 : ℚ) 0.88 = 0.82 by norm_num [min_def]]
  rw [show max (0.28 : ℚ) (1 - 0.82 * 0.7) = 213/500 by norm_num [max_def]]
  norm_num

theorem applyStep_scenario (r : ResourceState) (dt : ℚ) (he : r.entropy = 0.88)
    (hd0 : 0 ≤ r.distance) (hd : r.distance ≤ 105) (hdt : 0 ≤ dt) :
    applyStep r zeroUnits INITIAL_UPGRADES INITIAL_PRESTIGE dt =
      { metal := r.metal + 5.5 * (213/500) * dt
        energy := r.energy
        data := r.data + (max 0 (r.distance - 32) * 0.022 + 0.1) * (213/500) * dt
        probes := r.probes * (1 + (639/100000) * dt)
        entropy := 0.88
        distance := r.distance + r.probes * (1/10) * dt } := by
  have hPF := productionFactor_scenario r he hd
  have hlat := latencyFactor_scenario r hd
  have hpress : entropyPressure r INITIAL_UPGRADES INITIAL_PRESTIGE =
      (0.01 + r.distance / 9200) * 1 := by
    unfold entropyPressure
    simp only [INITIAL_UPGRADES, INITIAL_PRESTIGE, Bool.false_eq_true, Option.getD_some,
      lt_irrefl, false_or, if_false]
    rw [show max (0.65 : ℚ) (1 - 0 * 0.06) = 1 by norm_num [max_def]]
  have hmit : entropyMitigation zeroUnits INITIAL_UPGRADES = 0 := by
    norm_num [entropyMitigation, zeroUnits, INITIAL_UPGRADES]
  have hpnn : 0 ≤ (0.01 + r.distance / 9200) * 1 * dt := by
    have : (0:ℚ) ≤ r.distance / 9200 := by positivity
    nlinarith
  simp only [applyStep, computeProduction, hPF, hlat, hpress, hmit, he]
  simp only [zeroUnits, INITIAL_UPGRADES, INITIAL_PRESTIGE, Option.getD_some,
    Bool.false_eq_true, if_false]
  have hent : clamp (0.88 + ((0.01 + r.distance / 9200) * 1 - 0) * dt) 0 0.88 = 0.88 := by
    unfold clamp
    rw [min_eq_left (by linarith), max_eq_right (by norm_num)]
  rw [hent]
  simp only [ResourceState.mk.injEq]
  refine ⟨by ring, by ring, by ring, by ring, trivial, by ring⟩

/-- Partial geometric sum: geomSum m n = 1 + m + ... + m^(n-1). -/
def geomSum (m : ℚ) : ℕ → ℚ
  | 0 => 0
  | n+1 => 1 + m * geomSum m n

theorem geomSum_nonneg (m : ℚ) (hm : 0 ≤ m) : ∀ n, 0 ≤ geomSum m n := by
  intro n
  induction n with
  | zero => simp [geomSum]
  | succ k ih =>
      simp only [geomSum]
      nlinarith

theorem geomSum_closed (m : ℚ) (hm : m ≠ 1) : ∀ n, geomSum m n = (m ^ n - 1) / (m - 1) := by
  have hne : m - 1 ≠ 0 := sub_ne_zero.mpr hm
  intro n
  induction n with
  | zero => simp [geomSum]
  | succ k ih =>
      simp only [geomSum, ih, pow_succ]
      field_simp
      ring

/-- Splitting the loop: running a + b iterations from index i is running a
iterations, then b iterations from index i + a. -/
theorem simSteps_add (units : UnitKey → ℚ) (upgrades : UpgradeState) (p : PrestigeIn)
    (seconds step : ℚ) :
    ∀ (a b i : ℕ) (r : ResourceState),
      simSteps units upgrades p seconds step (a + b) i r =
        simSteps units upgrades p seconds step b (i + a)
          (simSteps units upgrades p seconds step a i r) := by
  intro a
  induction a with
  | zero => intro b i r; simp [simSteps]
  | succ k ih =>
      intro b i r
      rw [show k + 1 + b = (k + b) + 1 by omega, simSteps, simSteps, ih]
      have : i + 1 + k = i + (k + 1) := by omega
      rw [this]

/-- Closed form of the loop on the counterexample trajectory: as long as the
remaining iterations all take full steps and the distance stays below the
latency threshold, probes compound geometrically with ratio
1 + (639/100000) * step and distance accumulates the geometric sum. -/
theorem simSteps_scenario (seconds step : ℚ) (hstep : 0 < step) :
    ∀ (n i : ℕ) (r : ResourceState), r.entropy = 0.88 → 0 ≤ r.probes → 0 ≤ r.distance →
      ((i : ℚ) + (n : ℚ)) * step ≤ seconds →
      r.distance + r.probes * (1/10) * step * geomSum (1 + (639/100000) * step) n ≤ 105 →
      (simSteps zeroUnits INITIAL_UPGRADES INITIAL_PRESTIGE seconds step n i r).probes =
          r.probes * (1 + (639/100000) * step) ^ n ∧
      (simSteps zeroUnits INITIAL_UPGRADES INITIAL_PRESTIGE seconds step n i r).distance =
          r.distance + r.probes * (1/10) * step * geomSum (1 + (639/100000) * step) n ∧
      (simSteps zeroUnits INITIAL_UPGRADES INITIAL_PRESTIGE seconds step n i r).entropy =
          0.88 := by
  have hm : (0:ℚ) ≤ 1 + (639/100000) * step := by nlinarith
  intro n
  induction n with
  | zero =>
      intro i r he hp hd _ _
      simp only [simSteps, geomSum, pow_zero]
      exact ⟨by ring, by ring, he⟩
  | succ k ih =>
      intro i r he hp hd hsec hbound
      have hgeo := geomSum_nonneg _ hm k
      have hgeoS := geomSum_nonneg _ hm (k + 1)
      have hprodS : 0 ≤ r.probes * (1/10) * step * geomSum (1 + (639/100000) * step) (k + 1) :=
        mul_nonneg (mul_nonneg (mul_nonneg hp (by norm_num)) hstep.le) hgeoS
      have hd105 : r.distance ≤ 105 := by linarith
      have hrem : step ≤ seconds - (i : ℚ) * step := by
        push_cast at hsec
        nlinarith
      have hmin : min step (seconds - (i : ℚ) * step) = step := min_eq_left hrem
      rw [simSteps, hmin, applyStep_scenario r step he hd hd105 hstep.le]
      have hgrec : geomSum (1 + (639/100000) * step) (k + 1) =
          1 + (1 + (639/100000) * step) * geomSum (1 + (639/100000) * step) k := rfl
      have hbound' :
          (r.distance + r.probes * (1/10) * step) +
            (r.probes * (1 + (639/100000) * step)) * (1/10) * step *
              geomSum (1 + (639/100000) * step) k ≤ 105 := by
        rw [hgrec] at hbound
        nlinarith
      have hih := ih (i + 1)
        { metal := r.metal + 5.5 * (213/500) * step
          energy := r.energy
          data := r.data + (max 0 (r.distance - 32) * 0.022 + 0.1) * (213/500) * step
          probes := r.probes * (1 + (639/100000) * step)
          entropy := 0.88
          distance := r.distance + r.probes * (1/10) * step }
        rfl (by nlinarith) (by nlinarith)
        (by push_cast at hsec ⊢; nlinarith)
        (by exact hbound')
      obtain ⟨h1, h2, h3⟩ := hih
      refine ⟨?_, ?_, h3⟩
      · rw [h1]
        ring
      · rw [h2, hgrec]
        ring

/-- For an integer duration in (0, 86400], the guard does not fire and the cap
is the identity. -/
theorem simulateOfflineProgress_int (res : ResourceState) (units : UnitKey → ℚ)
    (upgrades : UpgradeState) (p : PrestigeIn) (st : Option ℚ) (z : ℤ) (hz : 0 < z)
    (hzc : (z : ℚ) ≤ 86400) :
    simulateOfflineProgress res units upgrades p (.fin (z : ℚ)) st =
      simCore res units upgrades p (z : ℚ) st := by
  have hzq : ¬ ((z : ℚ) ≤ 0) := by exact_mod_cast not_le.mpr hz
  unfold simulateOfflineProgress
  simp only [JsNum.jsFloor, Int.floor_intCast, JsNum.isNaNb, JsNum.leb, Bool.false_or,
    decide_eq_false hzq, Bool.false_eq_true, if_false]
  simp only [capSeconds, gt_iff_lt, if_neg (not_lt.mpr hzc)]

/-- Claim C7 as stated is false: with the all-default step rule, a run of
1201 seconds (step 11) ends with strictly fewer probes than a run of 1200
seconds (step 10) from the same state, because the coarser Euler step
under-compounds probe self-replication. -/
theorem C7_step_monotonicity_counterexample :
    (1200 : ℚ) ≤ 1201 ∧
    (simulateOfflineProgress monoRes zeroUnits INITIAL_UPGRADES INITIAL_PRESTIGE
        (.fin 1201) none).1.probes <
      (simulateOfflineProgress monoRes zeroUnits INITIAL_UPGRADES INITIAL_PRESTIGE
        (.fin 1200) none).1.probes := by
  refine ⟨by norm_num, ?_⟩
  -- ceiling computations for the two default step sizes and step counts
  have hc1 : (⌈(1200 : ℚ) / 120⌉ : ℤ) = 10 := by
    rw [show (1200 : ℚ) / 120 = ((10 : ℤ) : ℚ) by norm_num]
    exact Int.ceil_intCast 10
  have hc2 : (⌈(1200 : ℚ) / 10⌉ : ℤ) = 120 := by
    rw [show (1200 : ℚ) / 10 = ((120 : ℤ) : ℚ) by norm_num]
    exact Int.ceil_intCast 120
  have hc3 : (⌈(1201 : ℚ) / 120⌉ : ℤ) = 11 := by
    rw [Int.ceil_eq_iff]
    constructor <;> norm_num
  have hc4 : (⌈(1201 : ℚ) / 11⌉ : ℤ) = 110 := by
    rw [Int.ceil_eq_iff]
    constructor <;> norm_num
  -- reduce run 1 to the loop
  have hred1 : simulateOfflineProgress monoRes zeroUnits INITIAL_UPGRADES INITIAL_PRESTIGE
      (.fin 1200) none = simCore monoRes zeroUnits INITIAL_UPGRADES INITIAL_PRESTIGE 1200 none := by
    have := simulateOfflineProgress_int monoRes zeroUnits INITIAL_UPGRADES INITIAL_PRESTIGE
      none 1200 (by norm_num) (by norm_num)
    rwa [show ((1200 : ℤ) : ℚ) = (1200 : ℚ) by norm_num] at this
  have hred2 : simulateOfflineProgress monoRes zeroUnits INITIAL_UPGRADES INITIAL_PRESTIGE
      (.fin 1201) none = simCore monoRes zeroUnits INITIAL_UPGRADES INITIAL_PRESTIGE 1201 none := by
    have := simulateOfflineProgress_int monoRes zeroUnits INITIAL_UPGRADES INITIAL_PRESTIGE
      none 1201 (by norm_num) (by norm_num)
    rwa [show ((1201 : ℤ) : ℚ) = (1201 : ℚ) by norm_num] at this
  have hcore1 : (simCore monoRes zeroUnits INITIAL_UPGRADES INITIAL_PRESTIGE 1200 none).1 =
      simSteps zeroUnits INITIAL_UPGRADES INITIAL_PRESTIGE 1200 10 120 0 monoRes := by
    unfold simCore
    simp only [Option.getD_none, hc1]
    rw [show (((10 : ℤ)) : ℚ) = (10 : ℚ) by norm_num]
    rw [show clamp (10 : ℚ) 10 60 = 10 by norm_num [clamp, min_def, max_def]]
    rw [hc2]
    rfl
  have hcore2 : (simCore monoRes zeroUnits INITIAL_UPGRADES INITIAL_PRESTIGE 1201 none).1 =
      simSteps zeroUnits INITIAL_UPGRADES INITIAL_PRESTIGE 1201 11 110 0 monoRes := by
    unfold simCore
    simp only [Option.getD_none, hc3]
    rw [show (((11 : ℤ)) : ℚ) = (11 : ℚ) by norm_num]
    rw [show clamp (11 : ℚ) 10 60 = 11 by norm_num [clamp, min_def, max_def]]
    rw [hc4]
    rfl
  -- run 1: 120 full steps of 10 seconds
  have hb1 : monoRes.distance + monoRes.probes * (1/10) * 10 *
      geomSum (1 + (639/100000) * 10) 120 ≤ 105 := by
    rw [geomSum_closed _ (by norm_num)]
    norm_num [monoRes]
  have hrun1 := simSteps_scenario 1200 10 (by norm_num) 120 0 monoRes
    (by norm_num [monoRes]) (by norm_num [monoRes]) (by norm_num [monoRes])
    (by norm_num) hb1
  -- run 2: 109 full steps of 11 seconds, then one 2-second step
  have hb2 : monoRes.distance + monoRes.probes * (1/10) * 11 *
      geomSum (1 + (639/100000) * 11) 109 ≤ 105 := by
    rw [geomSum_closed _ (by norm_num)]
    norm_num [monoRes]
  have hrun2a := simSteps_scenario 1201 11 (by norm_num) 109 0 monoRes
    (by norm_num [monoRes]) (by norm_num [monoRes]) (by norm_num [monoRes])
    (by norm_num) hb2
  have hsplit : simSteps zeroUnits INITIAL_UPGRADES INITIAL_PRESTIGE 1201 11 110 0 monoRes =
      simSteps zeroUnits INITIAL_UPGRADES INITIAL_PRESTIGE 1201 11 1 (0 + 109)
        (simSteps zeroUnits INITIAL_UPGRADES INITIAL_PRESTIGE 1201 11 109 0 monoRes) := by
    rw [show (110 : ℕ) = 109 + 1 from rfl, simSteps_add]
  have hgeo109 : 0 ≤ geomSum (1 + (639/100000) * 11) 109 :=
    geomSum_nonneg _ (by norm_num) 109
  have hd0r : 0 ≤ (simSteps zeroUnits INITIAL_UPGRADES INITIAL_PRESTIGE 1201 11 109 0
      monoRes).distance := by
    rw [hrun2a.2.1]
    have : (0:ℚ) ≤ monoRes.probes * (1/10) * 11 * geomSum (1 + (639/100000) * 11) 109 := by
      have hp : (0:ℚ) ≤ monoRes.probes := by norm_num [monoRes]
      nlinarith
    have hd : (0:ℚ) ≤ monoRes.distance := by norm_num [monoRes]
    linarith
  have hd105r : (simSteps zeroUnits INITIAL_UPGRADES INITIAL_PRESTIGE 1201 11 109 0
      monoRes).distance ≤ 105 := by
    rw [hrun2a.2.1]
    exact hb2
  have hlast : simSteps zeroUnits INITIAL_UPGRADES INITIAL_PRESTIGE 1201 11 1 (0 + 109)
      (simSteps zeroUnits INITIAL_UPGRADES INITIAL_PRESTIGE 1201 11 109 0 monoRes) =
      applyStep (simSteps zeroUnits INITIAL_UPGRADES INITIAL_PRESTIGE 1201 11 109 0 monoRes)
        zeroUnits INITIAL_UPGRADES INITIAL_PRESTIGE
        (min 11 (1201 - ((0 + 109 : ℕ) : ℚ) * 11)) := by
    rw [show (1 : ℕ) = 0 + 1 from rfl, simSteps, simSteps]
  have hmin2 : min (11:ℚ) (1201 - ((0 + 109 : ℕ) : ℚ) * 11) = 2 := by
    push_cast
    norm_num [min_def]
  have happ := applyStep_scenario
    (simSteps zeroUnits INITIAL_UPGRADES INITIAL_PRESTIGE 1201 11 109 0 monoRes) 2
    hrun2a.2.2 hd0r hd105r (by norm_num)
  -- final probe counts
  have hp1 : (simulateOfflineProgress monoRes zeroUnits INITIAL_UPGRADES INITIAL_PRESTIGE
      (.fin 1200) none).1.probes = monoRes.probes * (1 + (639/100000) * 10) ^ 120 := by
    rw [hred1, hcore1, hrun1.1]
  have hp2 : (simulateOfflineProgress monoRes zeroUnits INITIAL_UPGRADES INITIAL_PRESTIGE
      (.fin 1201) none).1.probes =
      monoRes.probes * (1 + (639/100000) * 11) ^ 109 * (1 + (639/100000) * 2) := by
    rw [hred2, hcore2, hsplit, hlast, hmin2, happ]
    dsimp only
    rw [hrun2a.1]
  rw [hp1, hp2]
  norm_num [monoRes]

/-! ## Save / migration subsystem (src/game/save.ts)

Raw save payloads are arbitrary JSON-like JavaScript values, modelled by
JVal.  Property access on a non-object yields undefined, `??` is nullish
coalescing, `!raw` is JavaScript falsiness, and `Number(x)` is modelled by
jsToNumber (decimal string literals are parsed; hexadecimal/exponent string
forms and array-to-primitive coercion are not modelled — save envelopes
carry numeric or string-decimal versions). -/

/-- A JavaScript/JSON value. -/
inductive JVal where
  | null : JVal
  | undefined : JVal
  | bool : Bool → JVal
  | num : JsNum → JVal
  | str : String → JVal
  | arr : List JVal → JVal
  | obj : List (String × JVal) → JVal

/-- First binding of a key in the field list of an object. -/
def lookupField : List (String × JVal) → String → JVal
  | [], _ => .undefined
  | (k, v) :: rest, key => if k = key then v else lookupField rest key

/-- Property access x.key: undefined on missing keys and non-objects. -/
def getField : JVal → String → JVal
  | .obj fields, key => lookupField fields key
  | _, _ => .undefined

/-- The `??` operator: b when a is null or undefined, else a. -/
def nullish (a b : JVal) : JVal :=
  match a with
  | .null => b
  | .undefined => b
  | _ => a

/-- JavaScript falsiness (the `!raw` test in migrateSave). -/
def falsy : JVal → Bool
  | .null => true
  | .undefined => true
  | .bool b => !b
  | .num .nan => true
  | .num (.fin q) => decide (q = 0)
  | .num _ => false
  | .str s => decide (s = "")
  | .arr _ => false
  | .obj _ => false

/-- Digit list to natural number. -/
def digitsToNat (l : List Char) : ℕ :=
  l.foldl (fun a c => a * 10 + (c.toNat - 48)) 0

/-- Parse an unsigned decimal literal: digits, optionally followed by a dot
and fraction digits (at least one digit in total). -/
def parseUnsigned (l : List Char) : Option ℚ :=
  let intPart := l.takeWhile Char.isDigit
  let rest := l.dropWhile Char.isDigit
  match rest with
  | [] => if intPart.isEmpty then none else some (digitsToNat intPart)
  | '.' :: frac =>
      if frac.all Char.isDigit ∧ (¬ intPart.isEmpty ∨ ¬ frac.isEmpty) then
        some ((digitsToNat intPart : ℚ) + (digitsToNat frac : ℚ) / 10 ^ frac.length)
      else none
  | _ => none

/-- Number(string): empty/whitespace is 0, signed Infinity is infinite,
signed decimal literals parse, everything else is NaN. -/
def parseNumber (s : String) : JsNum :=
  let t := s.trim
  if t = "" then .fin 0
  else if t = "Infinity" ∨ t = "+Infinity" then .inf
  else if t = "-Infinity" then .ninf
  else
    match t.toList with
    | '+' :: rest =>
        match parseUnsigned rest with
        | some q => .fin q
        | none => .nan
    | '-' :: rest =>
        match parseUnsigned rest with
        | some q => .fin (-q)
        | none => .nan
    | l =>
        match parseUnsigned l with
        | some q => .fin q
        | none => .nan

/-- Number(x) conversion used by migrateSave on the version field. -/
def jsToNumber : JVal → JsNum
  | .null => .fin 0
  | .undefined => .nan
  | .bool b => .fin (if b then 1 else 0)
  | .num n => n
  | .str s => parseNumber s
  | .arr _ => .nan
  | .obj _ => .nan

/-- JavaScript `===` on numbers: NaN equals nothing. -/
def jsEqb : JsNum → JsNum → Bool
  | .nan, _ => false
  | _, .nan => false
  | .inf, .inf => true
  | .ninf, .ninf => true
  | .fin a, .fin b => decide (a = b)
  | _, _ => false

/-- The string names of the JSON keys used by save.ts. -/
def kVersion : String := "version"

def kSavedAt : String := "savedAt"

def kMeta : String := "meta"

def kAppVersion : String := "appVersion"

def kState : String := "state"

def kResources : String := "resources"

def kMetal : String := "metal"

def kEnergy : String := "energy"

def kData : String := "data"

def kProbes : String := "probes"

def kEntropy : String := "entropy"

def kDistance : String := "distance"

def kUnits : String := "units"

def kPrestige : String := "prestige"

def kCycles : String := "cycles"

def kStoredKnowledge : String := "storedKnowledge"

def kForks : String := "forks"

def kPrimeArchives : String := "primeArchives"

def kUpgradeState : String := "upgradeState"

def kLogs : String := "logs"

def kAutonomy : String := "autonomy"

def kDysonSheath : String := "dysonSheath"

def kAutoforge : String := "autoforge"

def kArchiveBloom : String := "archiveBloom"

def kQuantumMemory : String := "quantumMemory"

def kStellarCartography : String := "stellarCartography"

def kHarvesters : String := "harvesters"

def kFoundries : String := "foundries"

def kFabricators : String := "fabricators"

def kArchives : String := "archives"

def kSignalRelays : String := "signalRelays"

def kStabilizers : String := "stabilizers"

/-- The JSON key of each unit count. -/
def unitKeyName : UnitKey → String
  | .harvesters => kHarvesters
  | .foundries => kFoundries
  | .fabricators => kFabricators
  | .archives => kArchives
  | .signalRelays => kSignalRelays
  | .stabilizers => kStabilizers

/-- Currently supported save schema version (save.ts line 71). -/
def CURRENT_SAVE_VERSION : ℚ := 2

/-- Resources reconstructed by migrate_v0_to_v1.  Each field is coalesced
with `??` from the nested path, then the flat path, then the initial-state
default, so a present non-numeric value passes through unchanged (the
`as number` casts in the source do not check). -/
structure MigratedResources where
  metal : JVal
  energy : JVal
  data : JVal
  probes : JVal
  entropy : JVal
  distance : JVal

/-- Prestige reconstructed by migrate_v0_to_v1 (coalesced with `??`). -/
structure MigratedPrestige where
  cycles : JVal
  storedKnowledge : JVal
  forks : JVal
  primeArchives : JVal

/-- The state part of a migrated SaveV2 envelope. -/
structure MigratedState where
  resources : MigratedResources
  units : UnitKey → JsNum
  prestige : MigratedPrestige
  upgradeState : UpgradeState
  logs : JVal

/-- A SaveV2 envelope as produced by the migrators; savedAt is the
timestamp the migrator was invoked with (new Date().toISOString() in the
source, passed explicitly in this pure model). -/
structure SaveV2 where
  version : ℚ
  savedAt : String
  appVersion : String
  state : MigratedState

/-- The typeof-number check with a default (used for unit counts). -/
def numOrDefault (v : JVal) (d : ℚ) : JsNum :=
  match v with
  | .num n => n
  | _ => .fin d

/-- The typeof-boolean check with a default (used for upgrade flags). -/
def boolOrDefault (v : JVal) (d : Bool) : Bool :=
  match v with
  | .bool b => b
  | _ => d

/-- The rawObj local of migrate_v0_to_v1: raw coalesced with an empty object. -/
def rawObjOf (raw : JVal) : JVal := nullish raw (.obj [])

/-- The stateCandidate local of migrate_v0_to_v1: rawObj.state coalesced with rawObj. -/
def stateCandidateOf (raw : JVal) : JVal :=
  nullish (getField (rawObjOf raw) kState) (rawObjOf raw)

/-- migrate_v0_to_v1 from save.ts, lines 136-189: defensively rebuild every
field from the nested state.* path or the flat top-level fallback,
substituting initial-state defaults for missing or type-mismatched values,
and stamp the result with CURRENT_SAVE_VERSION (= 2, not 1), a fresh
timestamp and appVersion 0.0.0. -/
def migrate_v0_to_v1 (raw : JVal) (now : String) : SaveV2 :=
  let stateCandidate := stateCandidateOf raw
  let resourcesObj := nullish (getField stateCandidate kResources) (.obj [])
  let resources : MigratedResources :=
    { metal := nullish (getField resourcesObj kMetal)
        (nullish (getField stateCandidate kMetal) (.num (.fin INITIAL_RESOURCES.metal)))
      energy := nullish (getField resourcesObj kEnergy)
        (nullish (getField stateCandidate kEnergy) (.num (.fin INITIAL_RESOURCES.energy)))
      data := nullish (getField resourcesObj kData)
        (nullish (getField stateCandidate kData) (.num (.fin INITIAL_RESOURCES.data)))
      probes := nullish (getField resourcesObj kProbes)
        (nullish (getField stateCandidate kProbes) (.num (.fin INITIAL_RESOURCES.probes)))
      entropy := nullish (getField resourcesObj kEntropy)
        (nullish (getField stateCandidate kEntropy) (.num (.fin INITIAL_RESOURCES.entropy)))
      distance := nullish (getField resourcesObj kDistance)
        (nullish (getField stateCandidate kDistance) (.num (.fin INITIAL_RESOURCES.distance))) }
  let unitsRaw := nullish (getField stateCandidate kUnits) (.obj [])
  let units : UnitKey → JsNum := fun k =>
    numOrDefault (getField unitsRaw (unitKeyName k)) (INITIAL_UNITS k)
  let prestigeRaw := nullish (getField stateCandidate kPrestige) (.obj [])
  let prestige : MigratedPrestige :=
    { cycles := nullish (getField prestigeRaw kCycles) (.num (.fin 0))
      storedKnowledge := nullish (getField prestigeRaw kStoredKnowledge) (.num (.fin 0))
      forks := nullish (getField prestigeRaw kForks) (.num (.fin 0))
      primeArchives := nullish (getField prestigeRaw kPrimeArchives) (.num (.fin 0)) }
  let upgradeStateRaw := nullish (getField stateCandidate kUpgradeState) (.obj [])
  let upgradeStateObj : UpgradeState :=
    { autonomy := boolOrDefault (getField upgradeStateRaw kAutonomy) INITIAL_UPGRADES.autonomy
      dysonSheath :=
        boolOrDefault (getField upgradeStateRaw kDysonSheath) INITIAL_UPGRADES.dysonSheath
      autoforge :=
        boolOrDefault (getField upgradeStateRaw kAutoforge) INITIAL_UPGRADES.autoforge
      archiveBloom :=
        boolOrDefault (getField upgradeStateRaw kArchiveBloom) INITIAL_UPGRADES.archiveBloom
      quantumMemory :=
        boolOrDefault (getField upgradeStateRaw kQuantumMemory) INITIAL_UPGRADES.quantumMemory
      stellarCartography :=
        boolOrDefault (getField upgradeStateRaw kStellarCartography)
          INITIAL_UPGRADES.stellarCartography }
  let logs := nullish (getField stateCandidate kLogs) (.arr [])
  { version := CURRENT_SAVE_VERSION
    savedAt := now
    appVersion := "0.0.0"
    state :=
      { resources := resources
        units := units
        prestige := prestige
        upgradeState := upgradeStateObj
        logs := logs } }

/-- migrate_v1_to_v2 from save.ts, lines 191-205: reuse migrate_v0_to_v1,
then explicitly zero the v2 fields forks and primeArchives. -/
def migrate_v1_to_v2 (raw : JVal) (now : String) : SaveV2 :=
  let previous := migrate_v0_to_v1 raw now
  { previous with
      version := 2
      state :=
        { previous.state with
            prestige :=
              { previous.state.prestige with
                  forks := .num (.fin 0)
                  primeArchives := .num (.fin 0) } } }

/-- Encode a migrated envelope back as a JSON value (the shape produced by
the object literal in the source). -/
def SaveV2.toJVal (s : SaveV2) : JVal :=
  .obj
    [(kVersion, .num (.fin s.version)),
     (kSavedAt, .str s.savedAt),
     (kMeta, .obj [(kAppVersion, .str s.appVersion)]),
     (kState, .obj
       [(kResources, .obj
         [(kMetal, s.state.resources.metal),
          (kEnergy, s.state.resources.energy),
          (kData, s.state.resources.data),
          (kProbes, s.state.resources.probes),
          (kEntropy, s.state.resources.entropy),
          (kDistance, s.state.resources.distance)]),
        (kUnits, .obj
          [(kHarvesters, .num (s.state.units .harvesters)),
           (kFoundries, .num (s.state.units .foundries)),
           (kFabricators, .num (s.state.units .fabricators)),
           (kArchives, .num (s.state.units .archives)),
           (kSignalRelays, .num (s.state.units .signalRelays)),
           (kStabilizers, .num (s.state.units .stabilizers))]),
        (kPrestige, .obj
          [(kCycles, s.state.prestige.cycles),
           (kStoredKnowledge, s.state.prestige.storedKnowledge),
           (kForks, s.state.prestige.forks),
           (kPrimeArchives, s.state.prestige.primeArchives)]),
        (kUpgradeState, .obj
          [(kAutonomy, .bool s.state.upgradeState.autonomy),
           (kDysonSheath, .bool s.state.upgradeState.dysonSheath),
           (kAutoforge, .bool s.state.upgradeState.autoforge),
           (kArchiveBloom, .bool s.state.upgradeState.archiveBloom),
           (kQuantumMemory, .bool s.state.upgradeState.quantumMemory),
           (kStellarCartography, .bool s.state.upgradeState.stellarCartography)]),
        (kLogs, s.state.logs)])]

/-- The two fatal errors of migrateSave. -/
inductive MigrateError where
  | noSaveData : MigrateError
  | unsupportedVersion : JsNum → MigrateError
  deriving DecidableEq

/-- migrateSave from save.ts, lines 207-222: reject falsy payloads, dispatch
on Number(raw.version), pass version-2 envelopes through unchanged, and
reject every other finite version. -/
def migrateSave (raw : JVal) (now : String) : Except MigrateError JVal :=
  if falsy raw then .error .noSaveData
  else
    let ver := jsToNumber (getField raw kVersion)
    if !ver.isFiniteb || ver.ltb 1 then
      .ok (migrate_v0_to_v1 raw now).toJVal
    else if jsEqb ver (.fin 1) then
      .ok (migrate_v1_to_v2 raw now).toJVal
    else if jsEqb ver (.fin CURRENT_SAVE_VERSION) then
      .ok raw
    else
      .error (.unsupportedVersion ver)

/-! ## Claim C9: migrator output version stamp -/

/-- Claim C9: on every raw input, migrate_v0_to_v1 stamps the current schema
version 2 (not 1), the supplied fresh timestamp, and appVersion 0.0.0; the
v1-to-v2 migrator also yields version 2, so every migration branch returns an
envelope already claiming the current version. -/
theorem C9_migrator_version_stamp (raw : JVal) (now : String) :
    (migrate_v0_to_v1 raw now).version = CURRENT_SAVE_VERSION ∧
    CURRENT_SAVE_VERSION = 2 ∧
    (migrate_v0_to_v1 raw now).version ≠ 1 ∧
    (migrate_v0_to_v1 raw now).savedAt = now ∧
    (migrate_v0_to_v1 raw now).appVersion = "0.0.0" ∧
    (migrate_v1_to_v2 raw now).version = 2 :=
  ⟨rfl, rfl,
    (by norm_num [CURRENT_SAVE_VERSION] : CURRENT_SAVE_VERSION ≠ (1 : ℚ)),
    rfl, rfl, rfl⟩

/-! ## Claim C5: pass-through idempotence at the current version -/

/-- Claim C5: an envelope whose version field is the number 2 is returned by
migrateSave unchanged (the same value, no defensive copy). -/
theorem C5_passthrough_idempotence (fields : List (String × JVal)) (now : String)
    (h : getField (.obj fields) kVersion = .num (.fin 2)) :
    migrateSave (.obj fields) now = .ok (.obj fields) := by
  unfold migrateSave
  rw [if_neg (by simp [falsy] : ¬ (falsy (JVal.obj fields) = true))]
  rw [h]
  norm_num [jsToNumber, JsNum.isFiniteb, JsNum.ltb, jsEqb, CURRENT_SAVE_VERSION]

/-- A fixed timestamp for the witnesses. -/
def witnessNow : String := "1970-01-01T00:00:00.000Z"

/-- A minimal current-version envelope. -/
def passEnv : List (String × JVal) := [(kVersion, .num (.fin 2))]

/-- Witness for C5 on a concrete version-2 envelope. -/
theorem C5_passthrough_idempotence_witness :
    getField (.obj passEnv) kVersion = .num (.fin 2) ∧
    migrateSave (.obj passEnv) witnessNow = .ok (.obj passEnv) :=
  ⟨rfl, C5_passthrough_idempotence passEnv witnessNow rfl⟩

/-! ## Claim C6: default-filling in migrate_v0_to_v1 -/

/-- The raw JSON value migrate_v0_to_v1 reads for the count of unit k. -/
def rawUnitField (raw : JVal) (k : UnitKey) : JVal :=
  getField (nullish (getField (stateCandidateOf raw) kUnits) (.obj [])) (unitKeyName k)

/-- The concrete raw input from the spec: units.harvesters = 3 and nothing else. -/
def unitsOnlyRaw : JVal := .obj [(kUnits, .obj [(kHarvesters, .num (.fin 3))])]

/-- Claim C6: migrate_v0_to_v1 preserves every numeric raw unit count and
replaces every absent or non-numeric one by the initial-units default (not
zero); concretely, from raw = obj(units: obj(harvesters: 3)) the migrated
foundries count is INITIAL_UNITS.foundries and harvesters is 3. -/
theorem C6_default_filling (raw : JVal) (now : String) :
    ((migrate_v0_to_v1 unitsOnlyRaw now).state.units .foundries =
        .fin (INITIAL_UNITS .foundries) ∧
      (migrate_v0_to_v1 unitsOnlyRaw now).state.units .harvesters = .fin 3) ∧
    (∀ (k : UnitKey) (n : JsNum), rawUnitField raw k = .num n →
      (migrate_v0_to_v1 raw now).state.units k = n) ∧
    (∀ k : UnitKey, (∀ n : JsNum, rawUnitField raw k ≠ .num n) →
      (migrate_v0_to_v1 raw now).state.units k = .fin (INITIAL_UNITS k)) := by
  refine ⟨⟨rfl, rfl⟩, ?_, ?_⟩
  · intro k n h
    show numOrDefault (rawUnitField raw k) (INITIAL_UNITS k) = n
    rw [h]
    rfl
  · intro k h
    show numOrDefault (rawUnitField raw k) (INITIAL_UNITS k) = .fin (INITIAL_UNITS k)
    rcases hv : rawUnitField raw k with _ | _ | b | n | s | l | fs
    · rfl
    · rfl
    · rfl
    · exact absurd hv (h n)
    · rfl
    · rfl
    · rfl

/-- Witness for C6: the harvesters count 3 is numeric and preserved. -/
theorem C6_default_filling_witness :
    rawUnitField unitsOnlyRaw .harvesters = .num (.fin 3) ∧
    (migrate_v0_to_v1 unitsOnlyRaw witnessNow).state.units .harvesters = .fin 3 :=
  ⟨rfl, (C6_default_filling unitsOnlyRaw witnessNow).2.1 .harvesters (.fin 3) rfl⟩

/-! ## Claim C4: version dispatch and raises-iff of migrateSave -/

/-- Claim C4: with v = Number(raw.version): a falsy raw throws (noSaveData);
a non-finite v or v < 1 routes through migrate_v0_to_v1; v = 1 routes
through migrate_v1_to_v2; v = 2 returns raw unchanged; every other finite v
throws unsupportedVersion — and the falsy and unsupported-version cases are
the only inputs on which migrateSave fails. -/
theorem C4_version_dispatch (raw : JVal) (now : String) :
    (falsy raw = true → migrateSave raw now = .error .noSaveData) ∧
    (falsy raw = false →
      (((jsToNumber (getField raw kVersion)).isFiniteb = false ∨
          (jsToNumber (getField raw kVersion)).ltb 1 = true) →
        migrateSave raw now = .ok (migrate_v0_to_v1 raw now).toJVal) ∧
      (jsToNumber (getField raw kVersion) = .fin 1 →
        migrateSave raw now = .ok (migrate_v1_to_v2 raw now).toJVal) ∧
      (jsToNumber (getField raw kVersion) = .fin 2 →
        migrateSave raw now = .ok raw) ∧
      (∀ q : ℚ, jsToNumber (getField raw kVersion) = .fin q → ¬ q < 1 → q ≠ 1 → q ≠ 2 →
        migrateSave raw now = .error (.unsupportedVersion (.fin q)))) ∧
    ((∃ e, migrateSave raw now = .error e) ↔
      (falsy raw = true ∨ ∃ q : ℚ, jsToNumber (getField raw kVersion) = .fin q ∧
        ¬ q < 1 ∧ q ≠ 1 ∧ q ≠ 2)) := by
  by_cases hf : falsy raw = true
  · have hm : migrateSave raw now = .error .noSaveData := by
      unfold migrateSave
      rw [if_pos hf]
    refine ⟨fun _ => hm, fun hff => absurd hf (by simp [hff]), ?_⟩
    exact ⟨fun _ => Or.inl hf, fun _ => ⟨_, hm⟩⟩
  · have hff : falsy raw = false := by simpa using hf
    refine ⟨fun h => absurd h hf, fun _ => ?_, ?_⟩
    all_goals rcases hvc : jsToNumber (getField raw kVersion) with _ | _ | _ | q
    -- the dispatch conjunct, by cases on the version value
    · have hm : migrateSave raw now = .ok (migrate_v0_to_v1 raw now).toJVal := by
        unfold migrateSave
        rw [if_neg hf, hvc]
        rfl
      exact ⟨fun _ => hm, fun h => JsNum.noConfusion h,
        fun h => JsNum.noConfusion h,
        fun q hq => JsNum.noConfusion hq⟩
    · have hm : migrateSave raw now = .ok (migrate_v0_to_v1 raw now).toJVal := by
        unfold migrateSave
        rw [if_neg hf, hvc]
        rfl
      exact ⟨fun _ => hm, fun h => JsNum.noConfusion h,
        fun h => JsNum.noConfusion h,
        fun q hq => JsNum.noConfusion hq⟩
    · have hm : migrateSave raw now = .ok (migrate_v0_to_v1 raw now).toJVal := by
        unfold migrateSave
        rw [if_neg hf, hvc]
        rfl
      exact ⟨fun _ => hm, fun h => JsNum.noConfusion h,
        fun h => JsNum.noConfusion h,
        fun q hq => JsNum.noConfusion hq⟩
    · -- finite version q
      by_cases h1 : q < 1
      · have hm : migrateSave raw now = .ok (migrate_v0_to_v1 raw now).toJVal := by
          unfold migrateSave
          rw [if_neg hf, hvc]
          simp [JsNum.isFiniteb, JsNum.ltb, h1]
        refine ⟨fun _ => hm, ?_, ?_, ?_⟩
        · intro h
          injection h with h
          exact absurd (h ▸ h1) (by norm_num)
        · intro h
          injection h with h
          exact absurd (h ▸ h1) (by norm_num)
        · intro q' hq' hnl _ _
          injection hq' with hq'
          exact absurd (hq' ▸ h1) hnl
      · by_cases h2 : q = 1
        · have hm : migrateSave raw now = .ok (migrate_v1_to_v2 raw now).toJVal := by
            unfold migrateSave
            rw [if_neg hf, hvc]
            simp [JsNum.isFiniteb, JsNum.ltb, jsEqb, h1, h2]
          refine ⟨?_, fun _ => hm, ?_, ?_⟩
          · rintro (h | h)
            · exact Bool.noConfusion h
            · simp only [JsNum.ltb, decide_eq_true_eq] at h
              exact absurd h h1
          · intro h
            injection h with h
            exact absurd (h2.symm.trans h) (by norm_num)
          · intro q' hq' _ hne1 _
            injection hq' with hq'
            exact absurd (hq' ▸ h2) hne1
        · by_cases h3 : q = 2
          · have hm : migrateSave raw now = .ok raw := by
              unfold migrateSave
              rw [if_neg hf, hvc]
              simp [JsNum.isFiniteb, JsNum.ltb, jsEqb, CURRENT_SAVE_VERSION, h1, h2, h3]
            refine ⟨?_, ?_, fun _ => hm, ?_⟩
            · rintro (h | h)
              · exact Bool.noConfusion h
              · simp only [JsNum.ltb, decide_eq_true_eq] at h
                exact absurd h h1
            · intro h
              injection h with h
              exact absurd (h3.symm.trans h) (by norm_num)
            · intro q' hq' _ _ hne2
              injection hq' with hq'
              exact absurd (hq' ▸ h3) hne2
          · have hm : migrateSave raw now =
                .error (.unsupportedVersion (.fin q)) := by
              unfold migrateSave
              rw [if_neg hf, hvc]
              simp [JsNum.isFiniteb, JsNum.ltb, jsEqb, CURRENT_SAVE_VERSION, h1, h2, h3]
            refine ⟨?_, ?_, ?_, ?_⟩
            · rintro (h | h)
              · exact Bool.noConfusion h
              · simp only [JsNum.ltb, decide_eq_true_eq] at h
                exact absurd h h1
            · intro h
              injection h with h
              exact absurd h h2
            · intro h
              injection h with h
              exact absurd h h3
            · intro q' hq' _ _ _
              injection hq' with hq'
              rw [← hq']
              exact hm
    -- the raises-iff conjunct, by cases on the version value
    · have hm : migrateSave raw now = .ok (migrate_v0_to_v1 raw now).toJVal := by
        unfold migrateSave
        rw [if_neg hf, hvc]
        rfl
      rw [hm]
      constructor
      · rintro ⟨e, he⟩
        exact Except.noConfusion he
      · rintro (h | ⟨q, hq, _⟩)
        · exact absurd h hf
        · exact JsNum.noConfusion hq
    · have hm : migrateSave raw now = .ok (migrate_v0_to_v1 raw now).toJVal := by
        unfold migrateSave
        rw [if_neg hf, hvc]
        rfl
      rw [hm]
      constructor
      · rintro ⟨e, he⟩
        exact Except.noConfusion he
      · rintro (h | ⟨q, hq, _⟩)
        · exact absurd h hf
        · exact JsNum.noConfusion hq
    · have hm : migrateSave raw now = .ok (migrate_v0_to_v1 raw now).toJVal := by
        unfold migrateSave
        rw [if_neg hf, hvc]
        rfl
      rw [hm]
      constructor
      · rintro ⟨e, he⟩
        exact Except.noConfusion he
      · rintro (h | ⟨q, hq, _⟩)
        · exact absurd h hf
        · exact JsNum.noConfusion hq
    · by_cases h1 : q < 1
      · have hm : migrateSave raw now = .ok (migrate_v0_to_v1 raw now).toJVal := by
          unfold migrateSave
          rw [if_neg hf, hvc]
          simp [JsNum.isFiniteb, JsNum.ltb, h1]
        rw [hm]
        constructor
        · rintro ⟨e, he⟩
          exact Except.noConfusion he
        · rintro (h | ⟨q', hq', hnl, _⟩)
          · exact absurd h hf
          · injection hq' with hq'
            exact absurd (hq' ▸ h1) hnl
      · by_cases h2 : q = 1
        · have hm : migrateSave raw now = .ok (migrate_v1_to_v2 raw now).toJVal := by
            unfold migrateSave
            rw [if_neg hf, hvc]
            simp [JsNum.isFiniteb, JsNum.ltb, jsEqb, h1, h2]
          rw [hm]
          constructor
          · rintro ⟨e, he⟩
            exact Except.noConfusion he
          · rintro (h | ⟨q', hq', _, hne1, _⟩)
            · exact absurd h hf
            · injection hq' with hq'
              exact absurd (hq' ▸ h2) hne1
        · by_cases h3 : q = 2
          · have hm : migrateSave raw now = .ok raw := by
              unfold migrateSave
              rw [if_neg hf, hvc]
              simp [JsNum.isFiniteb, JsNum.ltb, jsEqb, CURRENT_SAVE_VERSION, h1, h2, h3]
            rw [hm]
            constructor
            · rintro ⟨e, he⟩
              exact Except.noConfusion he
            · rintro (h | ⟨q', hq', _, _, hne2⟩)
              · exact absurd h hf
              · injection hq' with hq'
                exact absurd (hq' ▸ h3) hne2
          · have hm : migrateSave raw now =
                .error (.unsupportedVersion (.fin q)) := by
              unfold migrateSave
              rw [if_neg hf, hvc]
              simp [JsNum.isFiniteb, JsNum.ltb, jsEqb, CURRENT_SAVE_VERSION, h1, h2, h3]
            rw [hm]
            constructor
            · intro _
              exact Or.inr ⟨q, rfl, h1, h2, h3⟩
            · intro _
              exact ⟨_, rfl⟩

/-- A version-3 envelope (newer than the current schema). -/
def highVersionRaw : JVal := .obj [(kVersion, .num (.fin 3))]

/-- Witness for C4: a version-3 save is rejected with unsupportedVersion. -/
theorem C4_version_dispatch_witness :
    falsy highVersionRaw = false ∧
    migrateSave highVersionRaw witnessNow = .error (.unsupportedVersion (.fin 3)) :=
  ⟨rfl,
    ((C4_version_dispatch highVersionRaw witnessNow).2.1 rfl).2.2.2 3 rfl
      (by norm_num) (by norm_num) (by norm_num)⟩
